import Mathlib

/-!
Shallow embedding of `src/main.py`, a Telegram bot that polls a
"currently playing track" endpoint and republishes the track in a channel.

Modelling conventions:
* Every Telegram / network call is fallible; its outcome is an oracle input
  of type `TgResult α` (`ok a` = the SDK call returned `a`, `err` = the call
  raised `telegram.error.TelegramError` / an I/O exception).
* Python `None`-able values are `Option`; Python truthiness tests on optional
  message ids (`if bot_state.channel_message_id:`) are `truthy`, which is
  false both for `None` and for the integer `0`, exactly as in Python.
* Wall-clock time (`get_moscow_time`) is passed in as the string `now`.
* The external string libraries `unidecode` and `urllib.parse.quote` are
  uninterpreted string functions collected in `StrFuns`.
-/

/-- Outcome of a fallible SDK / network call: the value returned, or the
exception it raised. -/
inductive TgResult (α : Type) where
  | ok (a : α)
  | err
deriving DecidableEq, Repr

/-- Python truthiness of an optional integer: `None` and `0` are falsy. -/
def truthy : Option Nat → Bool
  | none => false
  | some n => n != 0

/-- Python truthiness of an optional string: `None` and `""` are falsy. -/
def truthyStr : Option String → Bool
  | none => false
  | some s => !s.isEmpty

/-- The transient "track" dict built by `get_current_track`
(src/main.py:157-167). -/
structure Track where
  id : String
  title : String
  artists : String
  time : String
  yandex_link : String
  multi_link : String
  img : Option String
  genius_link : String
  download_url : Option String
deriving DecidableEq, Repr

/-- Uninterpreted models of the external string libraries used by
`get_genius_song_url`: `unidecode.unidecode` and `urllib.parse.quote`. -/
structure StrFuns where
  unidecode : String → String
  quote : String → String

/-- Model of an initialised `lyricsgenius.Genius` client
(src/main.py:59-73).  `search_song t a` is the outcome of
`genius.search_song(t, a)`: `Except.error` if the call raised,
`Except.ok none` if no song was found (Python-falsy `song`), and
`Except.ok (some url)` if a song with url `url` was found (`url = ""`
models a Python-falsy `song.url`). -/
structure GeniusClient where
  search_song : String → String → Except Unit (Option String)

/-- Embedding of the `BotState.__init__` field `genius` (src/main.py:57, 59-73):
when a `GENIUS_TOKEN` is configured, the client constructed by
`lyricsgenius.Genius(...)` — or `None` when that constructor raised;
`None` when no token is configured. -/
def init_genius (genius_token : Option String) (mk : TgResult GeniusClient) :
    Option GeniusClient :=
  if truthyStr genius_token then
    match mk with
    | TgResult.ok g => some g
    | TgResult.err => none
  else none

/-- The single mutable per-process record `BotState` (src/main.py:50-57). -/
structure BotState where
  last_track_id : Option String
  channel_message_id : Option Nat
  download_message_id : Option Nat
  bot_active : Bool
  bot_status_message_id : Option Nat
  genius : Option GeniusClient

/-- The fields assigned in `BotState.__init__` (src/main.py:52-57), in
source order. -/
def bot_state_field_names : List String :=
  ["last_track_id", "channel_message_id", "download_message_id",
   "bot_active", "bot_status_message_id", "genius"]

/-- Construction of the global `bot_state` (src/main.py:51-57, 75). -/
def BotState.init (genius_token : Option String) (mk : TgResult GeniusClient) :
    BotState :=
  { last_track_id := none
    channel_message_id := none
    download_message_id := none
    bot_active := false
    bot_status_message_id := none
    genius := init_genius genius_token mk }

/-- Embedding of `generate_multi_service_link` (src/main.py:111-112). -/
def generate_multi_service_link (track_id : String) : String :=
  "https://song.link/ya/" ++ track_id

/-- Embedding of `get_genius_song_url` (src/main.py:114-125).  `genius` is
`bot_state.genius`, fixed at startup. -/
def get_genius_song_url (uq : StrFuns) (genius : Option GeniusClient)
    (title artist : String) : String :=
  match genius with
  | none => "https://genius.com/search?q=" ++ uq.quote (artist ++ " " ++ title)
  | some g =>
    let clean_title :=
      uq.unidecode ((((title.splitOn "(").headD "").splitOn "-").headD "").trim
    let clean_artist :=
      uq.unidecode ((((artist.splitOn ",").headD "").splitOn "&").headD "").trim
    match g.search_song clean_title clean_artist with
    | Except.ok (some url) =>
        if !url.isEmpty then url
        else "https://genius.com/search?q=" ++
          uq.quote (clean_artist ++ " " ++ clean_title)
    | Except.ok none =>
        "https://genius.com/search?q=" ++
          uq.quote (clean_artist ++ " " ++ clean_title)
    | Except.error _ =>
        "https://genius.com/search?q=" ++ uq.quote (artist ++ " " ++ title)

/-- The `"artist"` field of the JSON track object: a list of names, a single
string, or absent. -/
inductive ArtistField where
  | alist (xs : List String)
  | astr (s : String)
  | absent
deriving DecidableEq, Repr

/-- The JSON object `data["track"]` returned by the poll endpoint, with the
fields `get_current_track` reads. -/
structure TrackJson where
  track_id : Option String
  title : Option String
  artist : ArtistField
  img : Option String
  download_link : Option String
deriving DecidableEq, Repr

/-- The parsed JSON body of the poll response; `track = none` models an
absent or Python-falsy `data.get("track")`. -/
structure PollBody where
  track : Option TrackJson
deriving DecidableEq, Repr

/-- The HTTP response of `requests.get` in `get_current_track`:
its status code, and its parsed JSON body (`json = none` models a body on
which `response.json()` raised). -/
structure PollResult where
  status_code : Nat
  json : Option PollBody
deriving DecidableEq, Repr

/-- The artists string built on src/main.py:150-154: a list-valued
`"artist"` is joined with `", "`, a string is taken as is, and an absent
field defaults to `""`. -/
def artists_string : ArtistField → String
  | ArtistField.alist xs => String.intercalate ", " xs
  | ArtistField.astr s => s
  | ArtistField.absent => ""

/-- Embedding of `get_current_track` (src/main.py:127-170).  `resp = none` models
`requests.get` itself raising (timeout etc.); the surrounding
`try/except` turns every failure into `none`, so the function is total. -/
def get_current_track (uq : StrFuns) (genius : Option GeniusClient)
    (now : String) (resp : Option PollResult) : Option Track :=
  match resp with
  | none => none
  | some r =>
    if r.status_code != 200 then none
    else
      match r.json with
      | none => none
      | some body =>
        match body.track with
        | none => none
        | some tj =>
          match tj.track_id with
          | none => none
          | some tid =>
            if tid.isEmpty then none
            else
              let artists := artists_string tj.artist
              let title := tj.title.getD ""
              some
                { id := tid
                  title := title
                  artists := artists
                  time := now
                  yandex_link := "https://music.yandex.ru/track/" ++ tid
                  multi_link := generate_multi_service_link tid
                  img := tj.img
                  genius_link := get_genius_song_url uq genius title artists
                  download_url := tj.download_link }

/-- Caption built for the channel post (src/main.py:174, 188). -/
def track_caption (t : Track) : String :=
  t.time ++ " - " ++ t.title ++ " — " ++ t.artists

/-- An inline button of the control-chat keyboard: text and callback data. -/
structure BotButton where
  text : String
  callback_data : String
deriving DecidableEq, Repr

/-- An inline button of the channel keyboard: text and url. -/
structure UrlButton where
  text : String
  url : String
deriving DecidableEq, Repr

/-- Embedding of `get_bot_keyboard` (src/main.py:81-91): the control-chat inline
keyboard, two rows. -/
def get_bot_keyboard : List (List BotButton) :=
  [[{ text := "▶️ Запустить трекер", callback_data := "start_tracker" },
    { text := "⏹️ Остановить трекер", callback_data := "stop_tracker" }],
   [{ text := "🔄 Обновить статус", callback_data := "refresh_status" }]]

/-- The callback-data strings offered by the control-chat keyboard. -/
def keyboard_callback_datas : List String :=
  (List.flatten get_bot_keyboard).map BotButton.callback_data

/-- Embedding of `get_channel_keyboard` (src/main.py:93-109): the keyboard attached to
the channel post; the link of the download button gets the download message id
appended when that id is truthy. -/
def get_channel_keyboard (download_message_id : Option Nat) (t : Track) :
    List (List UrlButton) :=
  let channel_link :=
    "https://t.me/text_pesni_aqw" ++
      (if truthy download_message_id then
        toString (download_message_id.getD 0) else "")
  [[{ text := "🎵 Я.Музыка", url := t.yandex_link },
    { text := "🌐 Другие сервисы", url := t.multi_link }],
   [{ text := "📝 Текст песни", url := t.genius_link },
    { text := "⬇️ Скачать трек", url := channel_link }]]

/-- Embedding of `send_new_track_message` (src/main.py:172-184): sends the photo post
and returns its message id; any exception is caught and yields `none`.
`o` is the outcome of `bot.send_photo`. -/
def send_new_track_message (_t : Track) (o : TgResult Nat) : Option Nat :=
  match o with
  | TgResult.ok mid => some mid
  | TgResult.err => none

/-- Embedding of `edit_track_message` (src/main.py:186-201): edits the photo post in
place; returns whether the edit succeeded.  `o` is the outcome of
`bot.edit_message_media`. -/
def edit_track_message (_t : Track) (_msg_id : Nat) (o : TgResult Unit) :
    Bool :=
  match o with
  | TgResult.ok _ => true
  | TgResult.err => false

/-- Oracle for one call of `send_new_download_message`: the status of the
`aiohttp` fetch of the download url, and the outcome of `bot.send_audio`. -/
structure SendDownOracle where
  fetchStatus : TgResult Nat
  sendAudio : TgResult Nat
deriving DecidableEq, Repr

/-- Oracle for one call of `update_download_message`: the status of the
`aiohttp` fetch, and the outcome of `bot.edit_message_media`. -/
structure UpdDownOracle where
  fetchStatus : TgResult Nat
  editAudio : TgResult Unit
deriving DecidableEq, Repr

/-- Embedding of `send_new_download_message` (src/main.py:203-228).  First component:
the returned message id (`none` on every failure).  Second component:
whether `bot.send_audio` was reached, i.e. whether an upload to the
download channel was attempted. -/
def send_new_download_message (t : Track) (o : SendDownOracle) :
    Option Nat × Bool :=
  if !truthyStr t.download_url then (none, false)
  else
    match o.fetchStatus with
    | TgResult.err => (none, false)
    | TgResult.ok status =>
      if status != 200 then (none, false)
      else
        match o.sendAudio with
        | TgResult.ok mid => (some mid, true)
        | TgResult.err => (none, true)

/-- Embedding of `update_download_message` (src/main.py:230-258).  First component:
the returned success flag (`false` on every failure).  Second component:
whether `bot.edit_message_media` was reached, i.e. whether an upload to
the download channel was attempted. -/
def update_download_message (t : Track) (_msg_id : Nat) (o : UpdDownOracle) :
    Bool × Bool :=
  if !truthyStr t.download_url then (false, false)
  else
    match o.fetchStatus with
    | TgResult.err => (false, false)
    | TgResult.ok status =>
      if status != 200 then (false, false)
      else
        match o.editAudio with
        | TgResult.ok _ => (true, true)
        | TgResult.err => (false, true)

/-- Embedding of `delete_message` (src/main.py:316-320): `bot.delete_message` raises
only `telegram.error` exceptions, and the handler catches exactly
`(BadRequest, TelegramError)` — so every outcome is swallowed and the
helper always returns normally. -/
def delete_message (o : TgResult Unit) : TgResult Unit :=
  match o with
  | TgResult.ok _ => TgResult.ok ()
  | TgResult.err => TgResult.ok ()

/-- One `await` performed by the polling loop body (src/main.py:260-284),
at call granularity, plus the trailing `asyncio.sleep`. -/
inductive Effect where
  | updateDownloadCall
  | deleteDownloadCall
  | sendDownloadCall
  | editChannelCall
  | deleteChannelCall
  | sendChannelCall
  | sleep (seconds : Nat)
deriving DecidableEq, Repr

/-- Oracle for one iteration of `track_checker`: the result of
`get_current_track` and the outcomes of every Telegram call the iteration
may make.  Delete outcomes are omitted because `delete_message` swallows
them. -/
structure IterOracle where
  track : Option Track
  updDown : UpdDownOracle
  sendDown : SendDownOracle
  editTrack : TgResult Unit
  sendTrack : TgResult Nat

/-- The body of the `while` loop of `track_checker`
(src/main.py:261-283), before the trailing sleep: the state update and
the ordered list of Telegram calls made. -/
def track_checker_body (st : BotState) (o : IterOracle) :
    BotState × List Effect :=
  match o.track with
  | none => (st, [])
  | some t =>
    if truthy st.channel_message_id && (st.last_track_id != some t.id) then
      let step1 : BotState × List Effect :=
        if truthy st.download_message_id then
          if !(update_download_message t (st.download_message_id.getD 0)
                o.updDown).1 then
            ({ st with download_message_id :=
                (send_new_download_message t o.sendDown).1 },
             [Effect.updateDownloadCall, Effect.deleteDownloadCall,
              Effect.sendDownloadCall])
          else (st, [Effect.updateDownloadCall])
        else
          ({ st with download_message_id :=
              (send_new_download_message t o.sendDown).1 },
           [Effect.sendDownloadCall])
      let step2 : BotState × List Effect :=
        if !(edit_track_message t (st.channel_message_id.getD 0)
              o.editTrack) then
          ({ step1.1 with channel_message_id :=
              send_new_track_message t o.sendTrack },
           step1.2 ++ [Effect.editChannelCall, Effect.deleteChannelCall,
             Effect.sendChannelCall])
        else (step1.1, step1.2 ++ [Effect.editChannelCall])
      ({ step2.1 with last_track_id := some t.id }, step2.2)
    else if !truthy st.channel_message_id then
      ({ st with
          download_message_id := (send_new_download_message t o.sendDown).1
          channel_message_id := send_new_track_message t o.sendTrack
          last_track_id := some t.id },
       [Effect.sendDownloadCall, Effect.sendChannelCall])
    else (st, [])

/-- One full iteration of the `track_checker` loop: the body followed by
`await asyncio.sleep(5)` (src/main.py:284). -/
def track_checker_iter (st : BotState) (o : IterOracle) :
    BotState × List Effect :=
  let r := track_checker_body st o
  (r.1, r.2 ++ [Effect.sleep 5])

/-- The `track_checker` loop (src/main.py:260-284), run for at most `fuel`
iterations.  `os i` is the oracle of iteration `i`; `cancel i = true`
models the control chat clearing `bot_state.bot_active` (the stop button)
between iterations, just before the `while` condition is re-checked.
Returns the final state and the number of iterations performed. -/
def track_checker_run (fuel : Nat) (st : BotState) (os : Nat → IterOracle)
    (cancel : Nat → Bool) : BotState × Nat :=
  match fuel with
  | 0 => (st, 0)
  | n + 1 =>
    let st0 := if cancel 0 then { st with bot_active := false } else st
    if st0.bot_active then
      let st1 := (track_checker_iter st0 (os 0)).1
      let r := track_checker_run n st1 (fun i => os (i + 1))
        (fun i => cancel (i + 1))
      (r.1, r.2 + 1)
    else (st0, 0)

/-- Embedding of `update_status_message` (src/main.py:322-339): edits the existing
status message when its id is truthy, otherwise sends a new one and
records its id; `(BadRequest, TelegramError)` are caught, so a failed
send leaves the id unset.  `edit` / `send` are the outcomes of
`bot.edit_message_text` / `bot.send_message`. -/
def update_status_message (st : BotState) (edit : TgResult Unit)
    (send : TgResult Nat) : BotState :=
  if truthy st.bot_status_message_id then
    match edit with
    | TgResult.ok _ => st
    | TgResult.err => st
  else
    match send with
    | TgResult.ok mid => { st with bot_status_message_id := some mid }
    | TgResult.err => st

/-- Oracle for one invocation of `button_handler`: the outcomes of the
two possible `delete_message` calls and of the status-message edit/send. -/
structure BtnOracle where
  deleteChannel : TgResult Unit
  deleteDownload : TgResult Unit
  statusEdit : TgResult Unit
  statusSend : TgResult Nat
deriving DecidableEq, Repr

/-- The outcome of one invocation of `button_handler`: the new state,
whether `asyncio.create_task(track_checker(bot))` was spawned, and the
text passed to `update_status_message` (when it was called). -/
structure HandlerResult where
  state : BotState
  spawned_checker : Bool
  status_text : Option String

/-- Embedding of `button_handler` (src/main.py:286-314).  `data` is
`query.data`; `query.answer()` is effect-only and not modelled. -/
def button_handler (st : BotState) (data : String) (o : BtnOracle) :
    HandlerResult :=
  if data = "start_tracker" then
    if !st.bot_active then
      let st1 := { st with
        bot_active := true
        channel_message_id := none
        download_message_id := none }
      { state := update_status_message st1 o.statusEdit o.statusSend
        spawned_checker := true
        status_text := some "🟢 Трекер запущен!" }
    else { state := st, spawned_checker := false, status_text := none }
  else if data = "stop_tracker" then
    if st.bot_active then
      let st1 := { st with bot_active := false }
      let st2 :=
        if truthy st1.channel_message_id then
          let _ := delete_message o.deleteChannel
          { st1 with channel_message_id := none }
        else st1
      let st3 :=
        if truthy st2.download_message_id then
          let _ := delete_message o.deleteDownload
          { st2 with download_message_id := none }
        else st2
      { state := update_status_message st3 o.statusEdit o.statusSend
        spawned_checker := false
        status_text := some "⏹️ Трекер остановлен" }
    else { state := st, spawned_checker := false, status_text := none }
  else if data = "refresh_status" then
    { state := update_status_message st o.statusEdit o.statusSend
      spawned_checker := false
      status_text := some
        ((if st.bot_active then "🟢 Активен" else "🔴 Остановлен") ++
          "\nУправление:") }
  else { state := st, spawned_checker := false, status_text := none }

/-- The environment-derived `CONFIG` dict (src/main.py:39-45), as far as
`main` reads it. -/
structure Config where
  telegram_bot_token : Option String
  yandex_token : Option String
  channel_id : Option String
  download_channel_id : Option Int
  genius_token : Option String
deriving DecidableEq, Repr

/-- Python truthiness of `CONFIG["DOWNLOAD_CHANNEL_ID"]` (an `int`):
`None` and `0` are falsy. -/
def truthyInt : Option Int → Bool
  | none => false
  | some n => n != 0

/-- The list comprehension of src/main.py:366: the required variables
whose `CONFIG` values are falsy, in source order. -/
def missing_vars (c : Config) : List String :=
  (if truthyStr c.telegram_bot_token then [] else ["TELEGRAM_BOT_TOKEN"]) ++
  (if truthyStr c.yandex_token then [] else ["YANDEX_TOKEN"]) ++
  (if truthyStr c.channel_id then [] else ["CHANNEL_ID"]) ++
  (if truthyInt c.download_channel_id then [] else ["DOWNLOAD_CHANNEL_ID"])

/-- One top-level action performed by `main` (src/main.py:357-376).
These are all of them: `main` validates its configuration, then builds
the Telegram `Application`, registers the two handlers and enters
`run_polling` — the `import pytz` probe always succeeds because `pytz`
is already imported at module top (src/main.py:7). -/
inductive MainAction where
  | logMissingVars
  | buildApplication
  | addStartCommandHandler
  | addButtonCallbackHandler
  | logStarted
  | runPolling
deriving DecidableEq, Repr

/-- All constructors of `MainAction`. -/
def all_main_actions : List MainAction :=
  [MainAction.logMissingVars, MainAction.buildApplication,
   MainAction.addStartCommandHandler, MainAction.addButtonCallbackHandler,
   MainAction.logStarted, MainAction.runPolling]

/-- Whether a `main` action binds a listening socket / serves HTTP.
None of them does: `Application.run_polling` performs outbound
long-polling `getUpdates` requests against the Telegram API and binds no
port, and `main.py` contains no web-server construct at all (no
`http.server`, `aiohttp.web`, `flask`, socket `bind`, or webhook mode). -/
def is_http_server_bind : MainAction → Bool
  | MainAction.logMissingVars => false
  | MainAction.buildApplication => false
  | MainAction.addStartCommandHandler => false
  | MainAction.addButtonCallbackHandler => false
  | MainAction.logStarted => false
  | MainAction.runPolling => false

/-- The sequence of actions `main` performs (src/main.py:357-376): on
missing required variables it logs and returns early; otherwise it builds
the application, adds the `/start` command handler and the callback-query
handler, logs, and runs long polling. -/
def main_actions (c : Config) : List MainAction :=
  if missing_vars c != [] then [MainAction.logMissingVars]
  else
    [MainAction.buildApplication, MainAction.addStartCommandHandler,
     MainAction.addButtonCallbackHandler, MainAction.logStarted,
     MainAction.runPolling]

/-- Helper: `update_status_message` touches at most `bot_status_message_id`:
all other state fields pass through unchanged. -/
theorem update_status_message_preserves (st : BotState) (e : TgResult Unit)
    (s : TgResult Nat) :
    (update_status_message st e s).last_track_id = st.last_track_id ∧
    (update_status_message st e s).channel_message_id =
      st.channel_message_id ∧
    (update_status_message st e s).download_message_id =
      st.download_message_id ∧
    (update_status_message st e s).bot_active = st.bot_active ∧
    (update_status_message st e s).genius = st.genius := by
  unfold update_status_message
  split
  · cases e <;> simp
  · cases s <;> simp

/-- C4 counterexample: the claimed display toggles do not exist.
`BotState.__init__` assigns exactly six attributes, none of them a
show-poster or show-buttons toggle; the sixth field is the `genius`
client handle. -/
theorem botstate_has_no_display_toggles :
    "show_poster" ∉ bot_state_field_names ∧
    "show_buttons" ∉ bot_state_field_names ∧
    "genius" ∈ bot_state_field_names ∧
    bot_state_field_names.length = 6 := by decide

/-- C4 (amended): the record holds the last-seen track id, the channel
message id, the download message id, the running flag, the status-message
id and a Genius client handle — no display toggles — and on construction
the five data fields default to none/false, while `genius` is `none`
whenever no `GENIUS_TOKEN` is configured. -/
theorem botstate_init_defaults (tok : Option String)
    (mk : TgResult GeniusClient) :
    bot_state_field_names =
      ["last_track_id", "channel_message_id", "download_message_id",
       "bot_active", "bot_status_message_id", "genius"] ∧
    (BotState.init tok mk).last_track_id = none ∧
    (BotState.init tok mk).channel_message_id = none ∧
    (BotState.init tok mk).download_message_id = none ∧
    (BotState.init tok mk).bot_active = false ∧
    (BotState.init tok mk).bot_status_message_id = none ∧
    (truthyStr tok = false → (BotState.init tok mk).genius = none) := by
  refine ⟨rfl, rfl, rfl, rfl, rfl, rfl, ?_⟩
  intro h
  simp [BotState.init, init_genius, h]

/-- Witness for `botstate_init_defaults` at a concrete missing token. -/
theorem botstate_init_defaults_witness :
    truthyStr none = false ∧
    (BotState.init none TgResult.err).bot_active = false ∧
    (BotState.init none TgResult.err).genius = none :=
  ⟨by decide, (botstate_init_defaults none TgResult.err).2.2.2.2.1,
   (botstate_init_defaults none TgResult.err).2.2.2.2.2.2 (by decide)⟩

/-- A fully configured environment, used as a concrete test
configuration. -/
def full_config_example : Config :=
  { telegram_bot_token := some "token", yandex_token := some "ya",
    channel_id := some "@chan", download_channel_id := some 100,
    genius_token := none }

/-- An entirely unset environment, used as a concrete test
configuration. -/
def empty_config_example : Config :=
  { telegram_bot_token := none, yandex_token := none,
    channel_id := none, download_channel_id := none,
    genius_token := none }

/-- C5 counterexample: no action of `main` binds a listening port or
serves HTTP — neither under a fully configured environment, nor under a
missing one, nor for any action `main` could ever perform — so the
program contains no liveness HTTP endpoint. -/
theorem main_has_no_http_server :
    (main_actions full_config_example).all
      (fun a => !is_http_server_bind a) = true ∧
    (main_actions empty_config_example).all
      (fun a => !is_http_server_bind a) = true ∧
    all_main_actions.all (fun a => !is_http_server_bind a) = true := by
  decide

/-- C5 (amended): the program runs no web server and exposes no liveness
endpoint; `main` either logs the missing required variables and returns,
or registers the two Telegram handlers and enters long polling, and none
of its actions binds an HTTP port. -/
theorem main_runs_polling_without_server (c : Config) :
    (∀ a ∈ main_actions c, is_http_server_bind a = false) ∧
    (missing_vars c = [] →
      main_actions c =
        [MainAction.buildApplication, MainAction.addStartCommandHandler,
         MainAction.addButtonCallbackHandler, MainAction.logStarted,
         MainAction.runPolling]) ∧
    (missing_vars c ≠ [] → main_actions c = [MainAction.logMissingVars]) := by
  refine ⟨fun a _ => by cases a <;> rfl, ?_, ?_⟩
  · intro h
    simp [main_actions, h]
  · intro h
    simp [main_actions, bne_iff_ne, h]

/-- Witness for `main_runs_polling_without_server` at a fully configured
environment. -/
theorem main_runs_polling_without_server_witness :
    MainAction.runPolling ∈ main_actions full_config_example ∧
    is_http_server_bind MainAction.runPolling = false ∧
    main_actions full_config_example =
      [MainAction.buildApplication, MainAction.addStartCommandHandler,
       MainAction.addButtonCallbackHandler, MainAction.logStarted,
       MainAction.runPolling] :=
  ⟨by decide,
   (main_runs_polling_without_server full_config_example).1
     MainAction.runPolling (by decide),
   (main_runs_polling_without_server full_config_example).2.1 (by decide)⟩

/-- C6: every iteration of the polling loop ends with the fixed
`asyncio.sleep(5)` delay, and 5 seconds lies within the 5–10 second
range. -/
theorem poll_iteration_ends_with_fixed_delay (st : BotState)
    (o : IterOracle) :
    (track_checker_iter st o).2.getLast? = some (Effect.sleep 5) ∧
    5 ≤ 5 ∧ 5 ≤ 10 :=
  ⟨List.getLast?_concat _, le_refl 5, by norm_num⟩

/-- C8: the audio re-upload is optional — a track without a download URL
makes both download-channel helpers return `none`/`false` without
attempting an upload, and an upload (`bot.send_audio` /
`bot.edit_message_media`) is attempted only when the track carries a
truthy download URL whose fetch returned HTTP 200. -/
theorem download_upload_only_with_url (t : Track) (mid : Nat)
    (oS : SendDownOracle) (oU : UpdDownOracle) :
    (t.download_url = none →
      send_new_download_message t oS = (none, false)) ∧
    (t.download_url = none →
      update_download_message t mid oU = (false, false)) ∧
    ((send_new_download_message t oS).2 = true →
      truthyStr t.download_url = true ∧ oS.fetchStatus = TgResult.ok 200) ∧
    ((update_download_message t mid oU).2 = true →
      truthyStr t.download_url = true ∧ oU.fetchStatus = TgResult.ok 200) := by
  refine ⟨?_, ?_, ?_, ?_⟩
  · intro h
    simp [send_new_download_message, h, truthyStr]
  · intro h
    simp [update_download_message, h, truthyStr]
  · intro h
    unfold send_new_download_message at h
    by_cases hu : truthyStr t.download_url
    · refine ⟨hu, ?_⟩
      simp only [hu, Bool.not_true, Bool.false_eq_true, if_false] at h
      match hf : oS.fetchStatus with
      | TgResult.err => rw [hf] at h; simp at h
      | TgResult.ok status =>
        rw [hf] at h
        by_cases hs : status = 200
        · rw [hs]
        · simp [bne_iff_ne, hs] at h
    · simp [hu] at h
  · intro h
    unfold update_download_message at h
    by_cases hu : truthyStr t.download_url
    · refine ⟨hu, ?_⟩
      simp only [hu, Bool.not_true, Bool.false_eq_true, if_false] at h
      match hf : oU.fetchStatus with
      | TgResult.err => rw [hf] at h; simp at h
      | TgResult.ok status =>
        rw [hf] at h
        by_cases hs : status = 200
        · rw [hs]
        · simp [bne_iff_ne, hs] at h
    · simp [hu] at h

/-- Witness for `download_upload_only_with_url`: a track with no download
URL yields no upload. -/
theorem download_upload_only_with_url_witness :
    ({ id := "42", title := "T", artists := "A", time := "12:00",
       yandex_link := "https://music.yandex.ru/track/42",
       multi_link := "https://song.link/ya/42", img := none,
       genius_link := "https://genius.com/search?q=A T",
       download_url := none } : Track).download_url = none ∧
    send_new_download_message
      { id := "42", title := "T", artists := "A", time := "12:00",
        yandex_link := "https://music.yandex.ru/track/42",
        multi_link := "https://song.link/ya/42", img := none,
        genius_link := "https://genius.com/search?q=A T",
        download_url := none }
      { fetchStatus := TgResult.ok 200, sendAudio := TgResult.ok 7 } =
      (none, false) :=
  ⟨rfl,
   (download_upload_only_with_url _ 0
     { fetchStatus := TgResult.ok 200, sendAudio := TgResult.ok 7 }
     { fetchStatus := TgResult.ok 200, editAudio := TgResult.ok () }).1
     rfl⟩

/-- C9: `get_current_track` is total (the embedding is a total function:
the Python body is wrapped in `try/except` and every failure returns
`None`), and it returns `none` for every failure shape — a raising
request, a non-200 status, a body without a truthy `"track"` field, and a
track object without a `"track_id"` — while a list-valued `"artist"`
field is joined with `", "` into the artists string. -/
theorem get_current_track_failure_shapes (uq : StrFuns)
    (genius : Option GeniusClient) (now : String) (r : PollResult)
    (body : PollBody) (tj : TrackJson) :
    (get_current_track uq genius now none = none) ∧
    (r.status_code ≠ 200 → get_current_track uq genius now (some r) = none) ∧
    (r.json = none → get_current_track uq genius now (some r) = none) ∧
    (r.json = some body → body.track = none →
      get_current_track uq genius now (some r) = none) ∧
    (r.json = some body → body.track = some tj → tj.track_id = none →
      get_current_track uq genius now (some r) = none) ∧
    (∀ tid xs, r.status_code = 200 → r.json = some body →
      body.track = some tj → tj.track_id = some tid → tid.isEmpty = false →
      tj.artist = ArtistField.alist xs →
      (get_current_track uq genius now (some r)).map Track.artists =
        some (String.intercalate ", " xs)) := by
  refine ⟨rfl, ?_, ?_, ?_, ?_, ?_⟩
  · intro h
    simp [get_current_track, bne_iff_ne, h]
  · intro h
    unfold get_current_track
    by_cases hs : r.status_code = 200
    · simp [hs, h]
    · simp [bne_iff_ne, hs]
  · intro hj ht
    unfold get_current_track
    by_cases hs : r.status_code = 200
    · simp [hs, hj, ht]
    · simp [bne_iff_ne, hs]
  · intro hj ht hid
    unfold get_current_track
    by_cases hs : r.status_code = 200
    · simp [hs, hj, ht, hid]
    · simp [bne_iff_ne, hs]
  · intro tid xs hs hj ht hid he ha
    simp [get_current_track, hs, hj, ht, hid, he, ha, artists_string]

/-- Identity instantiation of the uninterpreted string libraries, used to
evaluate the embedding on concrete inputs. -/
def str_funs_id : StrFuns :=
  { unidecode := fun s => s, quote := fun s => s }

/-- A concrete well-formed JSON track object with a list-valued artist
field, used to evaluate the embedding on concrete inputs. -/
def track_json_example : TrackJson :=
  { track_id := some "99", title := some "Song",
    artist := ArtistField.alist ["X", "Y"], img := none,
    download_link := none }

/-- A concrete well-formed poll response wrapping `track_json_example`. -/
def poll_result_example : PollResult :=
  { status_code := 200, json := some { track := some track_json_example } }

/-- Helper: `update_status_message` never changes the running flag. -/
theorem update_status_message_bot_active (st : BotState) (e : TgResult Unit)
    (s : TgResult Nat) :
    (update_status_message st e s).bot_active = st.bot_active :=
  (update_status_message_preserves st e s).2.2.2.1

/-- Witness for `get_current_track_failure_shapes`: on a concrete
response whose artist field is the list `["X", "Y"]`, the derived artists
string is the `", "`-join. -/
theorem get_current_track_failure_shapes_witness :
    poll_result_example.status_code = 200 ∧
    (get_current_track str_funs_id none "10:00"
        (some poll_result_example)).map Track.artists =
      some (String.intercalate ", " ["X", "Y"]) :=
  ⟨rfl,
   (get_current_track_failure_shapes str_funs_id none "10:00"
      poll_result_example { track := some track_json_example }
      track_json_example).2.2.2.2.2 "99" ["X", "Y"] rfl rfl rfl rfl
      (by decide) rfl⟩

/-- C3 counterexample: the control-chat keyboard offers exactly the
callbacks `start_tracker`, `stop_tracker` and `refresh_status` — there is
no display-option toggle button, and indeed the bot state holds no
display-toggle field that such a button could flip. -/
theorem keyboard_has_no_display_toggle :
    keyboard_callback_datas =
      ["start_tracker", "stop_tracker", "refresh_status"] ∧
    "show_poster" ∉ bot_state_field_names ∧
    "show_buttons" ∉ bot_state_field_names := by decide

/-- C3 (amended): the control chat offers inline buttons that start
polling, stop polling, and refresh the status message — for each of these
three actions there is a keyboard button whose callback the dispatcher
handles by performing it. -/
theorem control_buttons_dispatch (st : BotState) (o : BtnOracle) :
    ("start_tracker" ∈ keyboard_callback_datas ∧
      (st.bot_active = false →
        (button_handler st "start_tracker" o).state.bot_active = true ∧
        (button_handler st "start_tracker" o).spawned_checker = true)) ∧
    ("stop_tracker" ∈ keyboard_callback_datas ∧
      (st.bot_active = true →
        (button_handler st "stop_tracker" o).state.bot_active = false)) ∧
    ("refresh_status" ∈ keyboard_callback_datas ∧
      (button_handler st "refresh_status" o).status_text =
        some ((if st.bot_active then "🟢 Активен" else "🔴 Остановлен") ++
          "\nУправление:")) := by
  refine ⟨⟨by decide, ?_⟩, ⟨by decide, ?_⟩, ⟨by decide, ?_⟩⟩
  · intro h
    simp [button_handler, h, update_status_message_bot_active]
  · intro h
    by_cases hc : truthy st.channel_message_id <;>
      by_cases hd : truthy st.download_message_id <;>
        simp [button_handler, h, hc, hd, update_status_message_bot_active]
  · simp [button_handler,
      (by decide : ¬("refresh_status" : String) = "start_tracker"),
      (by decide : ¬("refresh_status" : String) = "stop_tracker")]

/-- Witness for `control_buttons_dispatch`: pressing start on a concrete
idle state activates the tracker and spawns the checker task. -/
theorem control_buttons_dispatch_witness :
    (BotState.init none TgResult.err).bot_active = false ∧
    (button_handler (BotState.init none TgResult.err) "start_tracker"
      { deleteChannel := TgResult.ok (), deleteDownload := TgResult.ok (),
        statusEdit := TgResult.ok (),
        statusSend := TgResult.ok 3 }).state.bot_active = true ∧
    (button_handler (BotState.init none TgResult.err) "start_tracker"
      { deleteChannel := TgResult.ok (), deleteDownload := TgResult.ok (),
        statusEdit := TgResult.ok (),
        statusSend := TgResult.ok 3 }).spawned_checker = true :=
  ⟨rfl,
   ((control_buttons_dispatch (BotState.init none TgResult.err)
      { deleteChannel := TgResult.ok (), deleteDownload := TgResult.ok (),
        statusEdit := TgResult.ok (),
        statusSend := TgResult.ok 3 }).1.2 rfl).1,
   ((control_buttons_dispatch (BotState.init none TgResult.err)
      { deleteChannel := TgResult.ok (), deleteDownload := TgResult.ok (),
        statusEdit := TgResult.ok (),
        statusSend := TgResult.ok 3 }).1.2 rfl).2⟩

/-- C10: pressing stop while the tracker is active always leaves
`bot_active` false and both message ids `none`, for every outcome of the
two `delete_message` calls — the deletes are swallowed — and pressing
stop while inactive changes nothing.  The hypotheses exclude the
unreachable ids `some 0`: Telegram message ids are positive, so every id
the program ever stores is either `none` or truthy. -/
theorem stop_button_clears_state (st : BotState) (o : BtnOracle)
    (hc0 : st.channel_message_id ≠ some 0)
    (hd0 : st.download_message_id ≠ some 0) :
    (st.bot_active = true →
      (button_handler st "stop_tracker" o).state.bot_active = false ∧
      (button_handler st "stop_tracker" o).state.channel_message_id =
        none ∧
      (button_handler st "stop_tracker" o).state.download_message_id =
        none) ∧
    (st.bot_active = false →
      button_handler st "stop_tracker" o =
        { state := st, spawned_checker := false, status_text := none }) := by
  constructor
  · intro h
    have hp := update_status_message_preserves
    match hcm : st.channel_message_id, hdm : st.download_message_id with
    | none, none =>
      simp [button_handler, h, hcm, hdm, truthy, hp]
    | none, some d =>
      have hd : d ≠ 0 := fun hz => hd0 (by rw [hdm, hz])
      simp [button_handler, h, hcm, hdm, truthy, hd, hp]
    | some c, none =>
      have hc : c ≠ 0 := fun hz => hc0 (by rw [hcm, hz])
      simp [button_handler, h, hcm, hdm, truthy, hc, hp]
    | some c, some d =>
      have hc : c ≠ 0 := fun hz => hc0 (by rw [hcm, hz])
      have hd : d ≠ 0 := fun hz => hd0 (by rw [hdm, hz])
      simp [button_handler, h, hcm, hdm, truthy, hc, hd, hp]
  · intro h
    simp [button_handler, h]

/-- Witness for `stop_button_clears_state`: a concrete active state with
stored ids is fully cleared even though both deletes fail. -/
theorem stop_button_clears_state_witness :
    (({ last_track_id := some "42", channel_message_id := some 10,
        download_message_id := some 20, bot_active := true,
        bot_status_message_id := some 1, genius := none } :
          BotState).bot_active = true) ∧
    ((button_handler
        { last_track_id := some "42", channel_message_id := some 10,
          download_message_id := some 20, bot_active := true,
          bot_status_message_id := some 1, genius := none }
        "stop_tracker"
        { deleteChannel := TgResult.err, deleteDownload := TgResult.err,
          statusEdit := TgResult.ok (),
          statusSend := TgResult.ok 2 }).state.bot_active = false ∧
     (button_handler
        { last_track_id := some "42", channel_message_id := some 10,
          download_message_id := some 20, bot_active := true,
          bot_status_message_id := some 1, genius := none }
        "stop_tracker"
        { deleteChannel := TgResult.err, deleteDownload := TgResult.err,
          statusEdit := TgResult.ok (),
          statusSend := TgResult.ok 2 }).state.channel_message_id = none ∧
     (button_handler
        { last_track_id := some "42", channel_message_id := some 10,
          download_message_id := some 20, bot_active := true,
          bot_status_message_id := some 1, genius := none }
        "stop_tracker"
        { deleteChannel := TgResult.err, deleteDownload := TgResult.err,
          statusEdit := TgResult.ok (),
          statusSend := TgResult.ok 2 }).state.download_message_id =
        none) :=
  ⟨rfl,
   (stop_button_clears_state
      { last_track_id := some "42", channel_message_id := some 10,
        download_message_id := some 20, bot_active := true,
        bot_status_message_id := some 1, genius := none }
      { deleteChannel := TgResult.err, deleteDownload := TgResult.err,
        statusEdit := TgResult.ok (), statusSend := TgResult.ok 2 }
      (by simp) (by simp)).1 rfl⟩

/-- The loop body never writes `bot_active`: no branch of
`track_checker` (src/main.py:261-283) assigns the flag. -/
theorem track_checker_body_bot_active (st : BotState) (o : IterOracle) :
    (track_checker_body st o).1.bot_active = st.bot_active := by
  unfold track_checker_body
  cases o.track with
  | none => rfl
  | some t =>
    split_ifs <;> simp_all
    all_goals split_ifs <;> simp_all

/-- One full iteration never writes `bot_active`. -/
theorem track_checker_iter_bot_active (st : BotState) (o : IterOracle) :
    (track_checker_iter st o).1.bot_active = st.bot_active :=
  track_checker_body_bot_active st o

/-- With the flag already false, the loop performs zero iterations. -/
theorem track_checker_run_inactive (n : Nat) (st : BotState)
    (os : Nat → IterOracle) (cancel : Nat → Bool)
    (h : st.bot_active = false) :
    (track_checker_run n st os cancel).2 = 0 := by
  cases n with
  | zero => rfl
  | succ n =>
    unfold track_checker_run
    by_cases hc : cancel 0 = true <;> simp [hc, h]

/-- Clearing the flag before check `j` stops the loop: at most `j`
iterations run. -/
theorem track_checker_run_cancel_le (n : Nat) :
    ∀ (st : BotState) (os : Nat → IterOracle) (cancel : Nat → Bool)
      (j : Nat), cancel j = true →
      (track_checker_run n st os cancel).2 ≤ j := by
  induction n with
  | zero => intro st os cancel j _; exact Nat.zero_le j
  | succ n ih =>
    intro st os cancel j hj
    unfold track_checker_run
    by_cases hc : cancel 0 = true
    · simp [hc]
    · cases j with
      | zero =>
        rw [hj] at hc
        exact absurd rfl hc
      | succ j =>
        by_cases hb : st.bot_active = true
        · simp only [hc, Bool.false_eq_true, if_false, hb, if_true]
          exact Nat.succ_le_succ
            (ih _ (fun i => os (i + 1)) (fun i => cancel (i + 1)) j hj)
        · have hb' : st.bot_active = false := by
            simpa using hb
          simp [hc, hb']

/-- With the flag true and never cleared, every fuel step runs an
iteration: nothing but the flag stops the loop. -/
theorem track_checker_run_active_count (n : Nat) :
    ∀ (st : BotState) (os : Nat → IterOracle), st.bot_active = true →
      (track_checker_run n st os (fun _ => false)).2 = n := by
  induction n with
  | zero => intro st os _; rfl
  | succ n ih =>
    intro st os h
    unfold track_checker_run
    simp only [Bool.false_eq_true, if_false, h, if_true]
    have h1 : (track_checker_iter st (os 0)).1.bot_active = true := by
      rw [track_checker_iter_bot_active]; exact h
    rw [ih _ (fun i => os (i + 1)) h1]

/-- C2: the polling loop is cooperatively cancelled by `bot_active` and
by nothing else — it runs zero iterations once the flag is false, no
iteration ever changes the flag, clearing the flag before check `j`
bounds the iteration count by `j`, and with the flag true and never
cleared the loop keeps iterating for its entire fuel. -/
theorem track_checker_cooperative_cancel :
    (∀ (n : Nat) (st : BotState) (os : Nat → IterOracle)
      (cancel : Nat → Bool), st.bot_active = false →
      (track_checker_run n st os cancel).2 = 0) ∧
    (∀ (st : BotState) (o : IterOracle),
      (track_checker_iter st o).1.bot_active = st.bot_active) ∧
    (∀ (n : Nat) (st : BotState) (os : Nat → IterOracle)
      (cancel : Nat → Bool) (j : Nat), cancel j = true →
      (track_checker_run n st os cancel).2 ≤ j) ∧
    (∀ (n : Nat) (st : BotState) (os : Nat → IterOracle),
      st.bot_active = true →
      (track_checker_run n st os (fun _ => false)).2 = n) :=
  ⟨track_checker_run_inactive, track_checker_iter_bot_active,
   track_checker_run_cancel_le, track_checker_run_active_count⟩

/-- A concrete active bot state used to evaluate the loop. -/
def active_state_example : BotState :=
  { last_track_id := none, channel_message_id := none,
    download_message_id := none, bot_active := true,
    bot_status_message_id := none, genius := none }

/-- A concrete iteration oracle used to evaluate the loop. -/
def iter_oracle_example : IterOracle :=
  { track := none
    updDown := { fetchStatus := TgResult.ok 200,
                 editAudio := TgResult.ok () }
    sendDown := { fetchStatus := TgResult.ok 200,
                  sendAudio := TgResult.ok 1 }
    editTrack := TgResult.ok ()
    sendTrack := TgResult.ok 2 }

/-- Witness for `track_checker_cooperative_cancel`: with the flag true
and never cleared a concrete 3-fuel run iterates 3 times; with it false
the run iterates 0 times; cancelling at check 1 bounds a 5-fuel run by
1 iteration. -/
theorem track_checker_cooperative_cancel_witness :
    active_state_example.bot_active = true ∧
    (track_checker_run 3 active_state_example (fun _ => iter_oracle_example)
      (fun _ => false)).2 = 3 ∧
    (track_checker_run 4 (BotState.init none TgResult.err)
      (fun _ => iter_oracle_example) (fun _ => false)).2 = 0 ∧
    (track_checker_run 5 active_state_example (fun _ => iter_oracle_example)
      (fun i => i == 1)).2 ≤ 1 :=
  ⟨rfl,
   track_checker_cooperative_cancel.2.2.2 3 active_state_example
     (fun _ => iter_oracle_example) rfl,
   track_checker_cooperative_cancel.1 4 (BotState.init none TgResult.err)
     (fun _ => iter_oracle_example) (fun _ => false) rfl,
   track_checker_cooperative_cancel.2.2.1 5 active_state_example
     (fun _ => iter_oracle_example) (fun i => i == 1) 1 rfl⟩

/-- The Telegram calls of the loop body that touch the main channel
post. -/
def is_channel_effect : Effect → Bool
  | Effect.editChannelCall => true
  | Effect.deleteChannelCall => true
  | Effect.sendChannelCall => true
  | _ => false

/-- C1: in a poll iteration that detects a new track while a channel
message id is stored, the channel post is first edited in place; exactly
when that edit fails, the old post is deleted and a new photo message is
sent, and the stored channel message id becomes the id of the new message —
`none` when the resend also fails. -/
theorem edit_else_delete_resend (st : BotState) (o : IterOracle) (t : Track)
    (ht : o.track = some t)
    (hc : truthy st.channel_message_id = true)
    (hn : st.last_track_id ≠ some t.id) :
    ((track_checker_iter st o).2.filter is_channel_effect =
      (if edit_track_message t (st.channel_message_id.getD 0) o.editTrack
        then [Effect.editChannelCall]
        else [Effect.editChannelCall, Effect.deleteChannelCall,
          Effect.sendChannelCall])) ∧
    ((track_checker_iter st o).1.channel_message_id =
      (if edit_track_message t (st.channel_message_id.getD 0) o.editTrack
        then st.channel_message_id
        else send_new_track_message t o.sendTrack)) := by
  constructor
  · by_cases h4 :
      edit_track_message t (st.channel_message_id.getD 0) o.editTrack <;>
      by_cases h2 : truthy st.download_message_id <;>
        by_cases h3 :
          (update_download_message t (st.download_message_id.getD 0)
            o.updDown).1 <;>
          simp [track_checker_iter, track_checker_body, ht, hc, hn, h2, h3,
            h4, is_channel_effect]
  · by_cases h4 :
      edit_track_message t (st.channel_message_id.getD 0) o.editTrack <;>
      by_cases h2 : truthy st.download_message_id <;>
        by_cases h3 :
          (update_download_message t (st.download_message_id.getD 0)
            o.updDown).1 <;>
          simp [track_checker_iter, track_checker_body, ht, hc, hn, h2, h3,
            h4]

/-- A concrete track used to evaluate the loop body. -/
def track_example : Track :=
  { id := "new-id", title := "T", artists := "A", time := "12:00",
    yandex_link := "https://music.yandex.ru/track/new-id",
    multi_link := "https://song.link/ya/new-id", img := some "http://img",
    genius_link := "https://genius.com/search?q=A T",
    download_url := none }

/-- A concrete state holding a channel message and an older track id. -/
def posted_state_example : BotState :=
  { last_track_id := some "old-id", channel_message_id := some 10,
    download_message_id := none, bot_active := true,
    bot_status_message_id := none, genius := none }

/-- A concrete iteration oracle delivering `track_example` with a failing
channel edit and a successful resend. -/
def iter_oracle_edit_fails : IterOracle :=
  { track := some track_example
    updDown := { fetchStatus := TgResult.ok 200,
                 editAudio := TgResult.ok () }
    sendDown := { fetchStatus := TgResult.ok 200,
                  sendAudio := TgResult.ok 1 }
    editTrack := TgResult.err
    sendTrack := TgResult.ok 77 }

/-- Witness for `edit_else_delete_resend`: on a concrete state and
oracle whose edit fails, the iteration deletes, resends, and stores the
new id 77. -/
theorem edit_else_delete_resend_witness :
    (iter_oracle_edit_fails.track = some track_example ∧
     truthy posted_state_example.channel_message_id = true ∧
     posted_state_example.last_track_id ≠ some track_example.id) ∧
    ((track_checker_iter posted_state_example
        iter_oracle_edit_fails).2.filter is_channel_effect =
      [Effect.editChannelCall, Effect.deleteChannelCall,
       Effect.sendChannelCall] ∧
     (track_checker_iter posted_state_example
        iter_oracle_edit_fails).1.channel_message_id = some 77) :=
  ⟨⟨rfl, rfl, by decide⟩,
   ⟨(edit_else_delete_resend posted_state_example iter_oracle_edit_fails
      track_example rfl rfl (by decide)).1,
    (edit_else_delete_resend posted_state_example iter_oracle_edit_fails
      track_example rfl rfl (by decide)).2⟩⟩

/-- C7: a successful poll derives a fresh track value whose title,
artists string, cover image, links, optional download URL and timestamp
all come from the response, and the change detection of the loop depends only
on the track id: two delivered tracks with equal ids put the iteration
into the same branch — the body performs Telegram calls for one exactly
when it does for the other — and leave the same stored last-seen id. -/
theorem track_derivation_and_id_only_detection :
    (∀ (uq : StrFuns) (genius : Option GeniusClient) (now : String)
      (r : PollResult) (body : PollBody) (tj : TrackJson) (tid : String),
      r.status_code = 200 → r.json = some body → body.track = some tj →
      tj.track_id = some tid → tid.isEmpty = false →
      get_current_track uq genius now (some r) =
        some { id := tid, title := tj.title.getD "",
               artists := artists_string tj.artist, time := now,
               yandex_link := "https://music.yandex.ru/track/" ++ tid,
               multi_link := generate_multi_service_link tid,
               img := tj.img,
               genius_link := get_genius_song_url uq genius
                 (tj.title.getD "") (artists_string tj.artist),
               download_url := tj.download_link }) ∧
    (∀ (st : BotState) (o1 o2 : IterOracle) (t1 t2 : Track),
      t1.id = t2.id → o1.track = some t1 → o2.track = some t2 →
      (((track_checker_body st o1).2 = []) ↔
        ((track_checker_body st o2).2 = [])) ∧
      (track_checker_body st o1).1.last_track_id =
        (track_checker_body st o2).1.last_track_id) := by
  constructor
  · intro uq genius now r body tj tid hs hj ht hid he
    simp [get_current_track, hs, hj, ht, hid, he]
  · intro st o1 o2 t1 t2 hid ho1 ho2
    unfold track_checker_body
    rw [ho1, ho2]
    dsimp only
    by_cases hb1 : truthy st.channel_message_id <;>
      by_cases hb2 : st.last_track_id = some t2.id <;>
        simp [hb1, hb2, hid] <;>
        split_ifs <;> simp

/-- A second concrete track sharing the id of `track_example` but differing in
every other field. -/
def track_example_same_id : Track :=
  { id := "new-id", title := "Other title", artists := "B, C",
    time := "23:59", yandex_link := "https://music.yandex.ru/track/new-id",
    multi_link := "https://song.link/ya/new-id", img := none,
    genius_link := "https://genius.com/search?q=B Other",
    download_url := some "http://dl/file.mp3" }

/-- An iteration oracle delivering `track_example_same_id` with every
call succeeding. -/
def iter_oracle_same_id : IterOracle :=
  { track := some track_example_same_id
    updDown := { fetchStatus := TgResult.ok 200,
                 editAudio := TgResult.ok () }
    sendDown := { fetchStatus := TgResult.ok 200,
                  sendAudio := TgResult.ok 5 }
    editTrack := TgResult.ok ()
    sendTrack := TgResult.ok 6 }

/-- Witness for `track_derivation_and_id_only_detection`: the concrete
response yields the fully derived track value, and two tracks sharing an
id trigger (or skip) the update together on a concrete state. -/
theorem track_derivation_and_id_only_detection_witness :
    poll_result_example.status_code = 200 ∧
    get_current_track str_funs_id none "11:00" (some poll_result_example) =
      some { id := "99", title := "Song", artists := "X, Y",
             time := "11:00",
             yandex_link := "https://music.yandex.ru/track/99",
             multi_link := "https://song.link/ya/99", img := none,
             genius_link := "https://genius.com/search?q=X, Y Song",
             download_url := none } ∧
    (track_example.id = track_example_same_id.id ∧
     (((track_checker_body posted_state_example iter_oracle_edit_fails).2 =
        []) ↔
      ((track_checker_body posted_state_example iter_oracle_same_id).2 =
        []))) :=
  ⟨rfl,
   track_derivation_and_id_only_detection.1 str_funs_id none "11:00"
     poll_result_example { track := some track_json_example }
     track_json_example "99" rfl rfl rfl rfl rfl,
   rfl,
   (track_derivation_and_id_only_detection.2 posted_state_example
     iter_oracle_edit_fails iter_oracle_same_id track_example
     track_example_same_id rfl rfl rfl).1⟩
